import Mathlib

/-!
Verification of the creatorhub-functions HTTP API (`src/function_app.py`).

The five handlers (`create_asset`, `get_asset`, `update_asset`,
`delete_asset`, `upload_file`) are embedded as pure Lean functions over
explicit store states.  The Asset Store (Cosmos container keyed by the
document's `id`, which is also the partition key) is an association list
from id to record; a record is a Python dict, modelled as an insertion
ordered association list from key to JSON value.  The Blob Store is an
association list from blob name to stored blob.  Nondeterministic inputs
of the Python code — the freshly generated `uuid.uuid4()` and the
`datetime.utcnow().isoformat()` timestamp — are passed as explicit string
parameters.  A Python exception that escapes the handler (only
`CosmosResourceNotFoundError` is caught in `get/update/delete`) is an
`Outcome.unhandled`.
-/

/-- A JSON value, as produced by `req.get_json()` / consumed by `json.dumps`. -/
inductive JVal where
  | jstr (s : String)
  | jnum (n : Int)
  | jbool (b : Bool)
  | jnull
  | jarr (xs : List JVal)
  | jobj (m : List (String × JVal))

/-- A Python dict with string keys: insertion-ordered association list. -/
abbrev Obj := List (String × JVal)

/-- Python `d.get(k)` as `Option`: the value at the first matching key. -/
def dictGet? (d : List (String × α)) (k : String) : Option α :=
  match d with
  | [] => none
  | (k', v) :: rest => if k' = k then some v else dictGet? rest k

/-- Assignment `d[k] = v` on a Python dict: replace in place if the key exists,
append otherwise (insertion order preserved). -/
def dictSet (d : List (String × α)) (k : String) (v : α) : List (String × α) :=
  match d with
  | [] => [(k, v)]
  | (k', v') :: rest =>
      if k' = k then (k', v) :: rest else (k', v') :: dictSet rest k v

/-- Python `del d[k]`: remove the entry at the first matching key. -/
def dictRemove (d : List (String × α)) (k : String) : List (String × α) :=
  match d with
  | [] => []
  | (k', v') :: rest =>
      if k' = k then rest else (k', v') :: dictRemove rest k

mutual
/-- Model of `json.dumps` on a JSON value (Python default separators). -/
def JVal.dumps : JVal → String
  | .jstr s => "\"" ++ s ++ "\""
  | .jnum n => toString n
  | .jbool b => cond b "true" "false"
  | .jnull => "null"
  | .jarr xs => "[" ++ JVal.dumpsArr xs ++ "]"
  | .jobj m => "\x7b" ++ JVal.dumpsFields m ++ "\x7d"

/-- Comma-separated rendering of a JSON array's elements. -/
def JVal.dumpsArr : List JVal → String
  | [] => ""
  | [x] => JVal.dumps x
  | x :: y :: rest => JVal.dumps x ++ ", " ++ JVal.dumpsArr (y :: rest)

/-- Comma-separated rendering of a JSON object's fields. -/
def JVal.dumpsFields : List (String × JVal) → String
  | [] => ""
  | [(k, v)] => "\"" ++ k ++ "\": " ++ JVal.dumps v
  | (k, v) :: p :: rest =>
      "\"" ++ k ++ "\": " ++ JVal.dumps v ++ ", " ++ JVal.dumpsFields (p :: rest)
end

/-- The Asset Store: Cosmos container contents, keyed by document id. -/
abbrev DocStore := List (String × Obj)

/-- A stored blob: the uploaded bytes and the content type recorded with them. -/
structure Blob where
  bytes : List Nat
  contentType : String
deriving DecidableEq, Repr

/-- The Blob Store: blob-container contents, keyed by blob name. -/
abbrev BlobStore := List (String × Blob)

/-- Python exceptions the embedding distinguishes. -/
inductive PyErr where
  | cosmosNotFound
  | cosmosConflict
  | blobNotFound
  | valueError
  | keyError
  | typeError
deriving DecidableEq, Repr

/-- Message text `str(e)` for the exceptions the handlers return in 500 bodies. -/
def PyErr.msg : PyErr → String
  | .cosmosNotFound => "Entity with the specified id does not exist in the system."
  | .cosmosConflict => "Entity with the specified id already exists in the system."
  | .blobNotFound => "The specified blob does not exist."
  | .valueError => "Invalid JSON data."
  | .keyError => "KeyError"
  | .typeError => "TypeError"

/-- An HTTP response: status code and body text. -/
structure HttpResponse where
  status : Nat
  body : String
deriving DecidableEq, Repr

/-- What a handler invocation produces: an HTTP response, or a Python
exception that escapes the handler (left to the Functions platform). -/
inductive Outcome where
  | resp (r : HttpResponse)
  | unhandled (e : PyErr)
deriving DecidableEq, Repr

/-- Store call `container.read_item(item=id, partition_key=id)`. -/
def read_item (docs : DocStore) (id : String) : Except PyErr Obj :=
  match dictGet? docs id with
  | some a => .ok a
  | none => .error .cosmosNotFound

/-- Store call `container.create_item(asset)`: insert keyed by the document's `id`
field, failing on a conflict (id already present). -/
def create_item (docs : DocStore) (asset : Obj) : Except PyErr DocStore :=
  match dictGet? asset "id" with
  | some (.jstr i) =>
      if (dictGet? docs i).isSome then .error .cosmosConflict
      else .ok (dictSet docs i asset)
  | _ => .error .typeError

/-- Store call `container.replace_item(item=id, body=asset)`. -/
def replace_item (docs : DocStore) (id : String) (asset : Obj) :
    Except PyErr DocStore :=
  if (dictGet? docs id).isSome then .ok (dictSet docs id asset)
  else .error .cosmosNotFound

/-- Store call `container.delete_item(item=id, partition_key=id)`. -/
def delete_item (docs : DocStore) (id : String) : Except PyErr DocStore :=
  if (dictGet? docs id).isSome then .ok (dictRemove docs id)
  else .error .cosmosNotFound

/-- Store call `blob_container.delete_blob(name)`: fails if no such blob exists. -/
def delete_blob (blobs : BlobStore) (name : String) : Except PyErr BlobStore :=
  if (dictGet? blobs name).isSome then .ok (dictRemove blobs name)
  else .error .blobNotFound

/-- Store call `blob_client.upload_blob(bytes, overwrite=True, content_settings=...)`. -/
def upload_blob (blobs : BlobStore) (name : String) (b : Blob) : BlobStore :=
  dictSet blobs name b

/--
Handler `create_asset` (POST /api/assets, `src/function_app.py` lines 41-69).
`newId` models `str(uuid.uuid4())`, `now` models
`datetime.utcnow().isoformat()`.  `body` is the result of
`req.get_json()`: `none` when the body is not valid JSON (a `ValueError`,
caught by the blanket `except Exception` and turned into a 500).
-/
def create_asset (newId now : String) (docs : DocStore) (body : Option Obj) :
    Outcome × DocStore :=
  match body with
  | none => (.resp ⟨500, PyErr.msg .valueError⟩, docs)
  | some data =>
      if (dictGet? data "title").isNone ∨ (dictGet? data "blobUrl").isNone then
        (.resp ⟨400, "title and blobUrl are required"⟩, docs)
      else
        let asset : Obj :=
          [("id", .jstr newId),
           ("title", (dictGet? data "title").getD .jnull),
           ("description", (dictGet? data "description").getD (.jstr "")),
           ("blobUrl", (dictGet? data "blobUrl").getD .jnull),
           ("created_at", .jstr now)]
        match create_item docs asset with
        | .ok docs2 => (.resp ⟨201, JVal.dumps (.jobj asset)⟩, docs2)
        | .error e => (.resp ⟨500, e.msg⟩, docs)

/--
Handler `get_asset` (GET /api/assets/\x7bid\x7d, `src/function_app.py` lines 77-93).
Only `CosmosResourceNotFoundError` is caught; the pure store model's
`read_item` raises nothing else.
-/
def get_asset (docs : DocStore) (id : String) : Outcome :=
  match read_item docs id with
  | .ok asset => .resp ⟨200, JVal.dumps (.jobj asset)⟩
  | .error _ => .resp ⟨404, "Asset not found"⟩

/--
Handler `list_assets` (GET /api/assets, `src/function_app.py` lines 101-113):
`json.dumps(list(container.read_all_items()))`.
-/
def list_assets (docs : DocStore) : Outcome :=
  .resp ⟨200, JVal.dumps (.jarr (docs.map fun p => .jobj p.2))⟩

/--
Handler `update_asset` (PUT /api/assets/\x7bid\x7d, `src/function_app.py` lines
121-148).  Embeds the handler statement by statement: `req.get_json()`
(a `ValueError` on invalid JSON escapes — only
`CosmosResourceNotFoundError` is caught, so it is `unhandled`), then
`read_item`, then the three field merges.  Python evaluates the default
argument `asset["k"]` of each `data.get("k", asset["k"])` eagerly, so a
stored record lacking one of the three keys raises an uncaught
`KeyError` even when the body supplies the field.
-/
def update_asset (now : String) (docs : DocStore) (id : String)
    (body : Option Obj) : Outcome × DocStore :=
  match body with
  | none => (.unhandled .valueError, docs)
  | some data =>
      match read_item docs id with
      | .error _ => (.resp ⟨404, "Asset not found"⟩, docs)
      | .ok asset =>
          match dictGet? asset "title" with
          | none => (.unhandled .keyError, docs)
          | some t0 =>
              let a1 := dictSet asset "title" ((dictGet? data "title").getD t0)
              match dictGet? a1 "description" with
              | none => (.unhandled .keyError, docs)
              | some d0 =>
                  let a2 := dictSet a1 "description"
                    ((dictGet? data "description").getD d0)
                  match dictGet? a2 "blobUrl" with
                  | none => (.unhandled .keyError, docs)
                  | some b0 =>
                      let a3 := dictSet a2 "blobUrl"
                        ((dictGet? data "blobUrl").getD b0)
                      let a4 := dictSet a3 "updated_at" (.jstr now)
                      match replace_item docs id a4 with
                      | .ok docs2 =>
                          (.resp ⟨200, JVal.dumps (.jobj a4)⟩, docs2)
                      | .error _ => (.resp ⟨404, "Asset not found"⟩, docs)

/-- An external-store call made by `delete_asset`, recorded in order. -/
inductive Effect where
  | readDoc (id : String)
  | delBlob (name : String)
  | delDoc (id : String)
deriving DecidableEq, Repr

/-- Characters after the last slash of the input (accumulator holds the
current segment reversed, reset at each separator). -/
def lastSegChars : List Char → List Char → List Char
  | [], acc => acc.reverse
  | c :: cs, acc =>
      if c = '/' then lastSegChars cs [] else lastSegChars cs (c :: acc)

/-- Python `u.split("/")[-1]`: the final path segment of a URL. -/
def lastSegment (u : String) : String :=
  String.mk (lastSegChars u.data [])

/--
Handler `delete_asset` (DELETE /api/assets/\x7bid\x7d, `src/function_app.py` lines
156-176).  Only `CosmosResourceNotFoundError` is caught; a failing
`blob_container.delete_blob` (azure.core `ResourceNotFoundError`, not a
subclass of the Cosmos error) escapes as `unhandled`, as do a `KeyError`
(record without `blobUrl`) and an `AttributeError`/`TypeError`
(`.split` on a non-string `blobUrl`), modelled here by their `PyErr`
constructors.  The fourth component records the store calls issued, in
order.
-/
def delete_asset (docs : DocStore) (blobs : BlobStore) (id : String) :
    Outcome × DocStore × BlobStore × List Effect :=
  match read_item docs id with
  | .error _ => (.resp ⟨404, "Asset not found"⟩, docs, blobs, [.readDoc id])
  | .ok asset =>
      match dictGet? asset "blobUrl" with
      | none => (.unhandled .keyError, docs, blobs, [.readDoc id])
      | some (.jstr u) =>
          let name := lastSegment u
          match delete_blob blobs name with
          | .error e => (.unhandled e, docs, blobs, [.readDoc id, .delBlob name])
          | .ok blobs2 =>
              match delete_item docs id with
              | .ok docs2 =>
                  (.resp ⟨204, ""⟩, docs2, blobs2,
                   [.readDoc id, .delBlob name, .delDoc id])
              | .error _ =>
                  (.resp ⟨404, "Asset not found"⟩, docs, blobs2,
                   [.readDoc id, .delBlob name, .delDoc id])
      | some _ => (.unhandled .typeError, docs, blobs, [.readDoc id])

/--
Handler `upload_file` (POST /api/upload, `src/function_app.py` lines 184-213).
`newUuid` models `uuid.uuid4()`; `baseUrl` models the blob container's
URL, so `blob_client.url` is `baseUrl ++ "/" ++ filename`; `contentType`
is the request's `Content-Type` header when present.
-/
def upload_file (newUuid baseUrl : String) (blobs : BlobStore)
    (body : List Nat) (contentType : Option String) : Outcome × BlobStore :=
  if body = [] then
    (.resp ⟨400, "Empty file"⟩, blobs)
  else
    let filename := newUuid ++ ".bin"
    let blobs2 := upload_blob blobs filename
      ⟨body, contentType.getD "application/octet-stream"⟩
    (.resp ⟨201, JVal.dumps (.jobj
        [("filename", .jstr filename),
         ("url", .jstr (baseUrl ++ "/" ++ filename))])⟩,
     blobs2)

/-- The status code of an outcome, when the handler produced a response. -/
def Outcome.statusOf : Outcome → Option Nat
  | .resp r => some r.status
  | .unhandled _ => none

theorem dictGet?_dictSet_self (d : List (String × α)) (k : String) (v : α) :
    dictGet? (dictSet d k v) k = some v := by
  induction d with
  | nil => simp [dictSet, dictGet?]
  | cons p rest ih =>
      obtain ⟨k', v'⟩ := p
      by_cases h : k' = k <;> simp [dictSet, dictGet?, h, ih]

theorem dictGet?_dictSet_ne (d : List (String × α)) (k k' : String) (v : α)
    (h : k ≠ k') : dictGet? (dictSet d k v) k' = dictGet? d k' := by
  induction d with
  | nil => simp [dictSet, dictGet?, h]
  | cons p rest ih =>
      obtain ⟨k0, v0⟩ := p
      by_cases h0 : k0 = k
      · subst h0
        simp [dictSet, dictGet?, h]
      · simp [dictSet, dictGet?, h0, ih]

/--
C1: for every asset successfully created via `create_asset` (status 201),
an immediate `get_asset` with the new asset's id returns HTTP 200 whose
JSON body is exactly the body returned by create — the same serialized
record, with no field added, removed, or altered.
-/
theorem create_then_get_exact (newId now : String) (docs : DocStore)
    (body : Option Obj) (r : HttpResponse) (docs2 : DocStore)
    (h : create_asset newId now docs body = (.resp r, docs2))
    (h201 : r.status = 201) :
    get_asset docs2 newId = .resp ⟨200, r.body⟩ := by
  cases body with
  | none =>
      simp only [create_asset, Prod.mk.injEq, Outcome.resp.injEq] at h
      rw [← h.1] at h201
      simp at h201
  | some data =>
      simp only [create_asset] at h
      split at h
      · simp only [Prod.mk.injEq, Outcome.resp.injEq] at h
        rw [← h.1] at h201
        simp at h201
      · rename_i hreq
        split at h
        · rename_i docs3 hok
          simp only [Prod.mk.injEq, Outcome.resp.injEq] at h
          obtain ⟨hr, hd⟩ := h
          simp [create_item, dictGet?] at hok
          split at hok
          · exact Except.noConfusion hok
          · rename_i hfresh
            rw [Except.ok.injEq] at hok
            subst hok
            subst hd
            rw [← hr]
            simp [get_asset, read_item, dictGet?_dictSet_self]
        · rename_i e herr
          simp only [Prod.mk.injEq, Outcome.resp.injEq] at h
          rw [← h.1] at h201
          simp at h201

theorem create_then_get_exact_witness :
    get_asset [("i", [("id", JVal.jstr "i"), ("title", JVal.jstr "t"),
        ("description", JVal.jstr ""), ("blobUrl", JVal.jstr "u"),
        ("created_at", JVal.jstr "n")])] "i" =
      Outcome.resp ⟨200, (HttpResponse.mk 201 (JVal.dumps (JVal.jobj
        [("id", JVal.jstr "i"), ("title", JVal.jstr "t"),
         ("description", JVal.jstr ""), ("blobUrl", JVal.jstr "u"),
         ("created_at", JVal.jstr "n")]))).body⟩ :=
  create_then_get_exact "i" "n" []
    (some [("title", JVal.jstr "t"), ("blobUrl", JVal.jstr "u")])
    ⟨201, JVal.dumps (JVal.jobj
      [("id", JVal.jstr "i"), ("title", JVal.jstr "t"),
       ("description", JVal.jstr ""), ("blobUrl", JVal.jstr "u"),
       ("created_at", JVal.jstr "n")])⟩
    [("i", [("id", JVal.jstr "i"), ("title", JVal.jstr "t"),
       ("description", JVal.jstr ""), ("blobUrl", JVal.jstr "u"),
       ("created_at", JVal.jstr "n")])]
    rfl rfl

/--
C4: a create request whose JSON body lacks the key `title` or lacks the
key `blobUrl` returns HTTP 400 (and leaves the Asset Store unchanged),
regardless of any other fields supplied in the body.
-/
theorem create_missing_field_400 (newId now : String) (docs : DocStore)
    (data : Obj)
    (h : (dictGet? data "title").isNone = true ∨
         (dictGet? data "blobUrl").isNone = true) :
    create_asset newId now docs (some data) =
      (.resp ⟨400, "title and blobUrl are required"⟩, docs) := by
  simp only [create_asset]
  rw [if_pos h]

theorem create_missing_field_400_witness :
    create_asset "i" "n" []
      (some [("blobUrl", JVal.jstr "u"), ("description", JVal.jstr "d"),
             ("id", JVal.jstr "forged")]) =
      (.resp ⟨400, "title and blobUrl are required"⟩, []) :=
  create_missing_field_400 "i" "n" [] _ (Or.inl rfl)

/--
C5 counterexample: a body that is not valid JSON does not yield HTTP 400:
`create_asset` answers 500 (the `ValueError` falls into the blanket
`except Exception` handler) and `update_asset` lets the exception escape
unhandled.
-/
theorem malformed_body_not_400 :
    (create_asset "i" "n" [] none).1.statusOf ≠ some 400 ∧
    (create_asset "i" "n" [] none).1.statusOf = some 500 ∧
    (update_asset "n" [] "a" none).1.statusOf ≠ some 400 := by
  decide

/--
C5 amended: malformed input is not mapped to HTTP 400.  A body that is
not valid JSON makes `create_asset` return HTTP 500 with the exception
text (its handler catches every exception), while `update_asset` catches
only the store's not-found error, so the parse error escapes the handler
unhandled; only a missing `title`/`blobUrl` yields 400 in create.
-/
theorem malformed_body_behavior (newId now id : String) (docs : DocStore) :
    create_asset newId now docs none =
      (.resp ⟨500, PyErr.msg .valueError⟩, docs) ∧
    update_asset now docs id none = (.unhandled .valueError, docs) :=
  ⟨rfl, rfl⟩

/--
C6: a create request containing `title` and `blobUrl` stores and returns
(HTTP 201) a record whose `id` is the freshly generated server-side value
(fresh: no stored record has it), whose `created_at` is the current UTC
timestamp string, whose `description` defaults to the empty string when
absent from the body, and which contains no `updated_at` field.
-/
theorem create_asset_success (newId now : String) (docs : DocStore)
    (data : Obj) (tv bv : JVal)
    (ht : dictGet? data "title" = some tv)
    (hb : dictGet? data "blobUrl" = some bv)
    (hfresh : dictGet? docs newId = none) :
    ∃ a : Obj,
      create_asset newId now docs (some data) =
        (.resp ⟨201, JVal.dumps (.jobj a)⟩, dictSet docs newId a) ∧
      dictGet? a "id" = some (.jstr newId) ∧
      dictGet? a "created_at" = some (.jstr now) ∧
      dictGet? a "description" =
        some ((dictGet? data "description").getD (.jstr "")) ∧
      dictGet? a "updated_at" = none := by
  refine ⟨[("id", .jstr newId), ("title", tv),
           ("description", (dictGet? data "description").getD (.jstr "")),
           ("blobUrl", bv), ("created_at", .jstr now)], ?_, ?_, ?_, ?_, ?_⟩
  · simp [create_asset, create_item, dictGet?, ht, hb, hfresh]
  · simp [dictGet?]
  · simp [dictGet?]
  · simp [dictGet?]
  · simp [dictGet?]

theorem create_asset_success_witness :
    ∃ a : Obj,
      create_asset "i" "n" [] (some [("title", JVal.jstr "t"),
          ("blobUrl", JVal.jstr "u")]) =
        (.resp ⟨201, JVal.dumps (.jobj a)⟩, dictSet [] "i" a) ∧
      dictGet? a "id" = some (.jstr "i") ∧
      dictGet? a "created_at" = some (.jstr "n") ∧
      dictGet? a "description" =
        some ((dictGet? [("title", JVal.jstr "t"), ("blobUrl", JVal.jstr "u")]
          "description").getD (.jstr "")) ∧
      dictGet? a "updated_at" = none :=
  create_asset_success "i" "n" [] _ (JVal.jstr "t") (JVal.jstr "u") rfl rfl rfl

/--
C7: an update request (with a JSON body) whose id names no existing record
returns HTTP 404 and performs no write: the Asset Store is returned
unchanged.
-/
theorem update_missing_404 (now : String) (docs : DocStore) (id : String)
    (data : Obj) (h : dictGet? docs id = none) :
    update_asset now docs id (some data) =
      (.resp ⟨404, "Asset not found"⟩, docs) := by
  simp [update_asset, read_item, h]

theorem update_missing_404_witness :
    update_asset "n" [("b", [("title", JVal.jstr "t")])] "a"
      (some [("title", JVal.jstr "t2")]) =
      (.resp ⟨404, "Asset not found"⟩, [("b", [("title", JVal.jstr "t")])]) :=
  update_missing_404 "n" _ "a" _ rfl

/--
C3: an update of an existing record (whose stored record carries the
three mutable fields, as every record written by this API does) replaces
each of `title`, `description`, `blobUrl` by the body's value when the
key is present in the body and otherwise retains the stored value, sets
`updated_at` to the current UTC time, leaves `id` and `created_at`
untouched, and writes the full merged record back, returning it with
HTTP 200.
-/
theorem update_asset_merge (now : String) (docs : DocStore) (id : String)
    (data asset : Obj) (t0 d0 b0 : JVal)
    (hread : dictGet? docs id = some asset)
    (ht : dictGet? asset "title" = some t0)
    (hd : dictGet? asset "description" = some d0)
    (hb : dictGet? asset "blobUrl" = some b0) :
    ∃ a : Obj,
      update_asset now docs id (some data) =
        (.resp ⟨200, JVal.dumps (.jobj a)⟩, dictSet docs id a) ∧
      dictGet? a "title" = some ((dictGet? data "title").getD t0) ∧
      dictGet? a "description" = some ((dictGet? data "description").getD d0) ∧
      dictGet? a "blobUrl" = some ((dictGet? data "blobUrl").getD b0) ∧
      dictGet? a "updated_at" = some (.jstr now) ∧
      dictGet? a "id" = dictGet? asset "id" ∧
      dictGet? a "created_at" = dictGet? asset "created_at" := by
  refine ⟨dictSet (dictSet (dictSet (dictSet asset "title"
      ((dictGet? data "title").getD t0)) "description"
      ((dictGet? data "description").getD d0)) "blobUrl"
      ((dictGet? data "blobUrl").getD b0)) "updated_at" (.jstr now),
    ?_, ?_, ?_, ?_, ?_, ?_, ?_⟩ <;>
    simp [update_asset, read_item, hread, ht, hd, hb, replace_item,
      dictGet?_dictSet_ne, dictGet?_dictSet_self]

theorem update_asset_merge_witness :
    ∃ a : Obj,
      update_asset "m" [("a", [("id", JVal.jstr "a"),
          ("title", JVal.jstr "t"), ("description", JVal.jstr "d"),
          ("blobUrl", JVal.jstr "u"), ("created_at", JVal.jstr "n")])] "a"
        (some [("title", JVal.jstr "t2")]) =
        (.resp ⟨200, JVal.dumps (.jobj a)⟩,
         dictSet [("a", [("id", JVal.jstr "a"),
           ("title", JVal.jstr "t"), ("description", JVal.jstr "d"),
           ("blobUrl", JVal.jstr "u"), ("created_at", JVal.jstr "n")])] "a" a) ∧
      dictGet? a "title" =
        some ((dictGet? [("title", JVal.jstr "t2")] "title").getD
          (JVal.jstr "t")) ∧
      dictGet? a "description" =
        some ((dictGet? [("title", JVal.jstr "t2")] "description").getD
          (JVal.jstr "d")) ∧
      dictGet? a "blobUrl" =
        some ((dictGet? [("title", JVal.jstr "t2")] "blobUrl").getD
          (JVal.jstr "u")) ∧
      dictGet? a "updated_at" = some (.jstr "m") ∧
      dictGet? a "id" =
        dictGet? [("id", JVal.jstr "a"), ("title", JVal.jstr "t"),
          ("description", JVal.jstr "d"), ("blobUrl", JVal.jstr "u"),
          ("created_at", JVal.jstr "n")] "id" ∧
      dictGet? a "created_at" =
        dictGet? [("id", JVal.jstr "a"), ("title", JVal.jstr "t"),
          ("description", JVal.jstr "d"), ("blobUrl", JVal.jstr "u"),
          ("created_at", JVal.jstr "n")] "created_at" :=
  update_asset_merge "m" _ "a" _ _ (JVal.jstr "t") (JVal.jstr "d")
    (JVal.jstr "u") rfl rfl rfl rfl

/--
C2 counterexample: an id naming an existing record does not guarantee
HTTP 204.  With the record `{"blobUrl": "https://x/f.bin"}` stored under
`"a"` and an empty Blob Store, `delete_blob` raises and the outcome is an
unhandled exception, not a 204 response.
-/
theorem delete_existing_not_always_204 :
    dictGet? [("a", [("blobUrl", JVal.jstr "https://x/f.bin")])] "a" =
      some [("blobUrl", JVal.jstr "https://x/f.bin")] ∧
    (delete_asset [("a", [("blobUrl", JVal.jstr "https://x/f.bin")])]
        [] "a").1 = Outcome.unhandled PyErr.blobNotFound ∧
    (delete_asset [("a", [("blobUrl", JVal.jstr "https://x/f.bin")])]
        [] "a").1 ≠ Outcome.resp ⟨204, ""⟩ := by
  refine ⟨rfl, rfl, ?_⟩
  intro hc
  exact Outcome.noConfusion hc

/--
C2 amended: deleting a nonexistent id returns HTTP 404 and modifies
neither store; deleting an existing record whose stored `blobUrl` is a
string whose final path segment names an existing blob (so the blob
deletion succeeds) performs, in this order, the record read, the blob
deletion, and the record deletion, and returns HTTP 204 with an empty
body.
-/
theorem delete_asset_spec (docs : DocStore) (blobs : BlobStore)
    (id : String) :
    (dictGet? docs id = none →
      delete_asset docs blobs id =
        (.resp ⟨404, "Asset not found"⟩, docs, blobs, [.readDoc id])) ∧
    (∀ asset u, dictGet? docs id = some asset →
      dictGet? asset "blobUrl" = some (.jstr u) →
      (dictGet? blobs (lastSegment u)).isSome = true →
      delete_asset docs blobs id =
        (.resp ⟨204, ""⟩, dictRemove docs id,
         dictRemove blobs (lastSegment u),
         [.readDoc id, .delBlob (lastSegment u), .delDoc id])) := by
  constructor
  · intro h
    simp [delete_asset, read_item, h]
  · intro asset u h hu hblob
    simp [delete_asset, read_item, h, hu, delete_blob, hblob, delete_item]

theorem delete_asset_spec_witness :
    delete_asset [] [] "a" =
      (.resp ⟨404, "Asset not found"⟩, [], [], [.readDoc "a"]) ∧
    delete_asset [("a", [("blobUrl", JVal.jstr "u/f.bin")])]
        [("f.bin", ⟨[1], "ct"⟩)] "a" =
      (.resp ⟨204, ""⟩, [], [],
       [.readDoc "a", .delBlob (lastSegment "u/f.bin"), .delDoc "a"]) :=
  ⟨(delete_asset_spec [] [] "a").1 rfl,
   (delete_asset_spec [("a", [("blobUrl", JVal.jstr "u/f.bin")])]
      [("f.bin", ⟨[1], "ct"⟩)] "a").2
     [("blobUrl", JVal.jstr "u/f.bin")] "u/f.bin" rfl rfl rfl⟩

/--
C10: on a delete of an existing record, when the Blob Store deletion
raises (the derived blob name does not exist), the Asset Store record is
left unchanged — the record deletion is never issued (no `delDoc` in the
call trace) — and the error is not mapped to any HTTP status: the
handler, which catches only the document store's not-found error, lets
the exception escape.
-/
theorem delete_blob_failure_keeps_record (docs : DocStore)
    (blobs : BlobStore) (id u : String) (asset : Obj)
    (h : dictGet? docs id = some asset)
    (hu : dictGet? asset "blobUrl" = some (.jstr u))
    (hblob : dictGet? blobs (lastSegment u) = none) :
    delete_asset docs blobs id =
      (.unhandled PyErr.blobNotFound, docs, blobs,
       [.readDoc id, .delBlob (lastSegment u)]) ∧
    (delete_asset docs blobs id).1.statusOf = none := by
  have hmain : delete_asset docs blobs id =
      (.unhandled PyErr.blobNotFound, docs, blobs,
       [.readDoc id, .delBlob (lastSegment u)]) := by
    simp [delete_asset, read_item, h, hu, delete_blob, hblob]
  exact ⟨hmain, by rw [hmain]; rfl⟩

theorem delete_blob_failure_keeps_record_witness :
    delete_asset [("a", [("blobUrl", JVal.jstr "u/f.bin")])]
        [("other.bin", ⟨[1], "ct"⟩)] "a" =
      (.unhandled PyErr.blobNotFound,
       [("a", [("blobUrl", JVal.jstr "u/f.bin")])],
       [("other.bin", ⟨[1], "ct"⟩)],
       [.readDoc "a", .delBlob (lastSegment "u/f.bin")]) ∧
    (delete_asset [("a", [("blobUrl", JVal.jstr "u/f.bin")])]
        [("other.bin", ⟨[1], "ct"⟩)] "a").1.statusOf = none :=
  delete_blob_failure_keeps_record
    [("a", [("blobUrl", JVal.jstr "u/f.bin")])]
    [("other.bin", ⟨[1], "ct"⟩)] "a" "u/f.bin"
    [("blobUrl", JVal.jstr "u/f.bin")] rfl rfl rfl

/--
C8: uploading an empty body returns HTTP 400 and creates no object (the
Blob Store is returned unchanged); uploading a non-empty body stores the
bytes under the generated filename `uuid ++ ".bin"` (overwriting) and
returns HTTP 201 with JSON containing that filename and the object's URL.
-/
theorem upload_file_spec (newUuid baseUrl : String) (blobs : BlobStore)
    (body : List Nat) (ct : Option String) :
    (body = [] →
      upload_file newUuid baseUrl blobs body ct =
        (.resp ⟨400, "Empty file"⟩, blobs)) ∧
    (body ≠ [] →
      upload_file newUuid baseUrl blobs body ct =
        (.resp ⟨201, JVal.dumps (.jobj
           [("filename", .jstr (newUuid ++ ".bin")),
            ("url", .jstr (baseUrl ++ "/" ++ (newUuid ++ ".bin")))])⟩,
         dictSet blobs (newUuid ++ ".bin")
           ⟨body, ct.getD "application/octet-stream"⟩)) := by
  constructor <;> intro h <;> simp [upload_file, upload_blob, h]

theorem upload_file_spec_witness :
    upload_file "f" "https://acct/uploads" [] [] none =
      (.resp ⟨400, "Empty file"⟩, []) ∧
    upload_file "f" "https://acct/uploads" [] [104, 105] none =
      (.resp ⟨201, JVal.dumps (.jobj
         [("filename", .jstr ("f" ++ ".bin")),
          ("url", .jstr ("https://acct/uploads" ++ "/" ++ ("f" ++ ".bin")))])⟩,
       dictSet [] ("f" ++ ".bin") ⟨[104, 105], "application/octet-stream"⟩) :=
  ⟨(upload_file_spec "f" "https://acct/uploads" [] [] none).1 rfl,
   (upload_file_spec "f" "https://acct/uploads" [] [104, 105] none).2
     (by decide)⟩

/--
C9: the record a successful create stores contains exactly the five
fields `id`, `title`, `description`, `blobUrl`, `created_at`, in that
order; its `id` and `created_at` are the server-generated values,
whatever the request body contains (any client-supplied `id`,
`created_at`, `updated_at` or other extra key is discarded).
-/
theorem create_stored_record_shape (newId now : String) (docs : DocStore)
    (data : Obj) (tv bv : JVal)
    (ht : dictGet? data "title" = some tv)
    (hb : dictGet? data "blobUrl" = some bv)
    (hfresh : dictGet? docs newId = none) :
    ∃ a : Obj,
      (create_asset newId now docs (some data)).2 = dictSet docs newId a ∧
      a.map Prod.fst =
        ["id", "title", "description", "blobUrl", "created_at"] ∧
      dictGet? a "id" = some (.jstr newId) ∧
      dictGet? a "created_at" = some (.jstr now) := by
  refine ⟨[("id", .jstr newId), ("title", tv),
           ("description", (dictGet? data "description").getD (.jstr "")),
           ("blobUrl", bv), ("created_at", .jstr now)], ?_, ?_, ?_, ?_⟩
  · simp [create_asset, create_item, dictGet?, ht, hb, hfresh]
  · simp
  · simp [dictGet?]
  · simp [dictGet?]

theorem create_stored_record_shape_witness :
    ∃ a : Obj,
      (create_asset "i" "n" [] (some
        [("title", JVal.jstr "t"), ("blobUrl", JVal.jstr "u"),
         ("id", JVal.jstr "forged"), ("created_at", JVal.jstr "forged"),
         ("updated_at", JVal.jstr "forged"),
         ("extra", JVal.jnum 7)])).2 = dictSet [] "i" a ∧
      a.map Prod.fst =
        ["id", "title", "description", "blobUrl", "created_at"] ∧
      dictGet? a "id" = some (.jstr "i") ∧
      dictGet? a "created_at" = some (.jstr "n") :=
  create_stored_record_shape "i" "n" [] _ (JVal.jstr "t") (JVal.jstr "u")
    rfl rfl rfl
